import Mathlib

/-!
Verification development for the frontend authentication gateway
(`app.py`) and its IBM App ID OIDC client (`auth/app_id_auth.py`).

The Python code is shallowly embedded: JSON documents become the
inductive `JVal` (dictionaries and arrays are encoded as cons chains so
that decidable equality can be derived), the Flask session becomes an
association list, and every outbound HTTP call site becomes an explicit
`HttpRequest` value together with an `HttpOutcome` parameter standing
for whatever the network returned.  Functions that the source lets
raise exceptions return `Except`, mirroring the raise sites; stateful
methods return the updated client state explicitly.  HTTP headers are
not modelled (no property below inspects them); form/query parameters
are kept, as is the `timeout=` argument of each `requests` call, which
several properties are about.
-/

set_option autoImplicit false
set_option maxRecDepth 8192

instance {ε α : Type} [DecidableEq ε] [DecidableEq α] : DecidableEq (Except ε α) := fun x y =>
  match x, y with
  | .ok a, .ok b => if h : a = b then .isTrue (by rw [h]) else .isFalse (by simp [h])
  | .error a, .error b => if h : a = b then .isTrue (by rw [h]) else .isFalse (by simp [h])
  | .ok _, .error _ => .isFalse (by simp)
  | .error _, .ok _ => .isFalse (by simp)

/-- JSON values.  Objects and arrays are built from cons-style
constructors (`objCons`/`arrCons`) rather than nested `List`s so that
`DecidableEq` can be derived; `objCons k v rest` is the dictionary
`rest` with the binding `k ↦ v` put in front. -/
inductive JVal where
  | null
  | bool (b : Bool)
  | str (s : String)
  | num (n : Int)
  | objNil
  | objCons (k : String) (v : JVal) (rest : JVal)
  | arrNil
  | arrCons (v : JVal) (rest : JVal)
deriving DecidableEq

/-- Python `dict.get(k)`: first binding for `k`, if any.  On non-dict
values Python would raise `AttributeError`; the embedding returns
`none` there, and theorems that depend on the distinction carry a
well-formedness hypothesis (`keySetWF`). -/
def JVal.get? : JVal → String → Option JVal
  | .objCons k v rest, key => if k = key then some v else rest.get? key
  | _, _ => none

/-- Python truthiness (`bool(x)`) restricted to JSON values: `None`,
`False`, `""`, `0`, `{}` and `[]` are falsy. -/
def JVal.truthy : JVal → Bool
  | .null => false
  | .bool b => b
  | .str s => s ≠ ""
  | .num n => n ≠ 0
  | .objNil => false
  | .objCons _ _ _ => true
  | .arrNil => false
  | .arrCons _ _ => true

/-- Elements of a JSON array encoded as an `arrCons` chain. -/
def JVal.elems : JVal → List JVal
  | .arrCons v rest => v :: rest.elems
  | _ => []

/-- Holds (as `true`) iff the value is a well-formed dictionary chain. -/
def JVal.isObjChain : JVal → Bool
  | .objNil => true
  | .objCons _ _ rest => rest.isObjChain
  | _ => false

/-- Holds (as `true`) iff the value is a well-formed array chain. -/
def JVal.isArrChain : JVal → Bool
  | .arrNil => true
  | .arrCons _ rest => rest.isArrChain
  | _ => false

/-- Python truthiness of an optional query-string / argument value:
`None` and `""` are falsy. -/
def optTruthy : Option String → Bool
  | some s => s ≠ ""
  | none => false

/-- One outbound HTTP call site, as written in the source: the method,
the URL, the `params=`/`data=` key-value pairs, and the `timeout=`
argument (`none` when the source passes no timeout, in which case the
`requests` library waits indefinitely). -/
structure HttpRequest where
  method : String
  url : String
  formData : List (String × String)
  timeout : Option Nat
deriving DecidableEq

/-- What the network produced for one call: either the `requests` call
raised (connection error or timeout), carrying `str(e)`, or a response
with a status code and a body; `body = none` models a body on which
`response.json()` raises. -/
inductive HttpOutcome where
  | exn (msg : String)
  | resp (status : Nat) (body : Option JVal)
deriving DecidableEq

/-- A Flask view result: a redirect (`url_for` target path), a JSON
response with a status code, or rendered HTML. -/
inductive Resp where
  | redirect (loc : String)
  | json (status : Nat) (body : JVal)
  | html (status : Nat)
deriving DecidableEq

/-- The Flask server-side session: an insertion-ordered dictionary of
JSON values. -/
abbrev Session := List (String × JVal)

/-- Reading `session[k]`: first binding for `k`. -/
def lookupKey : Session → String → Option JVal
  | [], _ => none
  | (k, v) :: rest, key => if k = key then some v else lookupKey rest key

/-- Writing `session[k] = v`: overwrite in place or append. -/
def setKey : Session → String → JVal → Session
  | [], key, v => [(key, v)]
  | (k, w) :: rest, key, v =>
      if k = key then (key, v) :: rest else (k, w) :: setKey rest key v

/-- The `AppIDAuth` object of `auth/app_id_auth.py`: the constructor
arguments plus the mutable public-key cache `self._public_keys`
(initially `None`). -/
structure AppIDAuth where
  region : String
  tenant_id : String
  client_id : String
  secret : String
  public_keys : Option JVal := none
deriving DecidableEq

/-- The constructor field `self.base_url = f"https://{region}.appid.cloud.ibm.com"`. -/
def AppIDAuth.base_url (a : AppIDAuth) : String :=
  "https://" ++ a.region ++ ".appid.cloud.ibm.com"

/-- The constructor field `self.oauth_server_url = f"{base_url}/oauth/v4/{tenant_id}"`. -/
def AppIDAuth.oauth_server_url (a : AppIDAuth) : String :=
  a.base_url ++ "/oauth/v4/" ++ a.tenant_id

/-- Uppercase hexadecimal digit, as `urllib.parse.quote` emits. -/
def hexDigit (n : Nat) : Char :=
  if n < 10 then Char.ofNat (48 + n) else Char.ofNat (55 + n)

/-- Percent-escape of one byte: `%XX`. -/
def byteEscape (b : Nat) : List Char :=
  ['%', hexDigit (b / 16), hexDigit (b % 16)]

/-- UTF-8 bytes of a character (as `str.encode('utf-8')` produces). -/
def utf8Bytes (c : Char) : List Nat :=
  let n := c.toNat
  if n < 128 then [n]
  else if n < 2048 then [192 + n / 64, 128 + n % 64]
  else if n < 65536 then [224 + n / 4096, 128 + (n / 64) % 64, 128 + n % 64]
  else [240 + n / 262144, 128 + (n / 4096) % 64, 128 + (n / 64) % 64, 128 + n % 64]

/-- Characters `urllib.parse.quote` leaves unescaped with `safe=''`:
ASCII letters, digits, and `_.-~`. -/
def isSafeChar (c : Char) : Bool :=
  c.isAlphanum || c = '_' || c = '.' || c = '-' || c = '~'

/-- Action of `urllib.parse.quote_plus` on one character: safe characters pass
through, a space becomes `+`, everything else is percent-escaped
bytewise. -/
def quoteChar (c : Char) : List Char :=
  if isSafeChar c then [c]
  else if c = ' ' then ['+']
  else ((utf8Bytes c).map byteEscape).flatten

/-- Model of `urllib.parse.quote_plus`. -/
def quote_plus (s : String) : String :=
  String.mk ((s.data.map quoteChar).flatten)

/-- Model of `urllib.parse.urlencode` with its default `quote_via=quote_plus`:
escape keys and values and join with `&`, in insertion order. -/
def urlencode (ps : List (String × String)) : String :=
  String.intercalate "&" (ps.map (fun p => quote_plus p.1 ++ "=" ++ quote_plus p.2))

/-- Model of `if not redirect_uri: redirect_uri = os.getenv("APPID_REDIRECT_URI",
"http://localhost:5000/auth/callback")`; `envRedirect` stands for the
result of that `os.getenv` call.  Note the Python truthiness test: an
empty string also falls back. -/
def effectiveRedirect (redirect_uri : Option String) (envRedirect : String) : String :=
  match redirect_uri with
  | some r => if r = "" then envRedirect else r
  | none => envRedirect

/-- The `params` dictionary built by `get_login_url`, with `state`
appended only when truthy (`if state:`). -/
def loginParams (a : AppIDAuth) (redirect_uri : String) (state : Option String) :
    List (String × String) :=
  [("client_id", a.client_id), ("response_type", "code"),
   ("redirect_uri", redirect_uri), ("scope", "openid profile email")] ++
  (match state with
   | some s => if s = "" then [] else [("state", s)]
   | none => [])

/-- Model of `AppIDAuth.get_login_url`: pure string composition of the
authorization endpoint with the urlencoded parameters; issues no
HTTP request. -/
def get_login_url (a : AppIDAuth) (redirect_uri : Option String) (state : Option String)
    (envRedirect : String) : String :=
  a.oauth_server_url ++ "/authorization?" ++
    urlencode (loginParams a (effectiveRedirect redirect_uri envRedirect) state)

/-- Sanity evaluation of the embedded URL builder on a concrete
configuration, matching the URL the Python code produces. -/
theorem get_login_url_concrete_eval :
    get_login_url
      { region := "us-east", tenant_id := "t1", client_id := "cid", secret := "s" }
      (some "http://localhost:5000/auth/callback") none "unused"
    = "https://us-east.appid.cloud.ibm.com/oauth/v4/t1/authorization?client_id=cid&response_type=code&redirect_uri=http%3A%2F%2Flocalhost%3A5000%2Fauth%2Fcallback&scope=openid+profile+email" := by
  rfl

/-- A representative `str(e)` for a raised `requests.exceptions.JSONDecodeError`
(the exact wording of that library message is not inspected by any theorem). -/
def jsonDecodeErrMsg : String := "Expecting value: line 1 column 1 (char 0)"

/-- The `requests.post(token_url, data=..., headers=...)` call site of
`exchange_code_for_tokens`: note the absent `timeout=`. -/
def tokenExchangeRequest (a : AppIDAuth) (code redirect_uri : String) : HttpRequest where
  method := "POST"
  url := a.oauth_server_url ++ "/token"
  formData := [("grant_type", "authorization_code"), ("code", code),
               ("redirect_uri", redirect_uri), ("client_id", a.client_id),
               ("client_secret", a.secret)]
  timeout := none

/-- Model of `AppIDAuth.exchange_code_for_tokens`: one POST to the token
endpoint; returns the parsed JSON on 200, raises
`Exception(f"Token exchange failed: {status}")` otherwise; a raised
`requests` exception or JSON decode error propagates uncaught
(modelled as the error string). -/
def exchange_code_for_tokens (a : AppIDAuth) (code : String) (redirect_uri : Option String)
    (envRedirect : String) (outcome : HttpOutcome) : HttpRequest × Except String JVal :=
  let req := tokenExchangeRequest a code (effectiveRedirect redirect_uri envRedirect)
  match outcome with
  | .exn msg => (req, .error msg)
  | .resp status body =>
      if status = 200 then
        match body with
        | some tokens => (req, .ok tokens)
        | none => (req, .error jsonDecodeErrMsg)
      else (req, .error ("Token exchange failed: " ++ toString status))

/-- The exceptions `get_public_keys` can let escape. -/
inductive KeysError where
  /-- The `raise Exception(f"Failed to get public keys: {status}")` on non-200. -/
  | httpError (status : Nat)
  /-- the `requests.get` call itself raised (no try/except around it). -/
  | reqException (msg : String)
  /-- The case where `response.json()` raised on a non-JSON 200 body. -/
  | jsonError
deriving DecidableEq

/-- The `str(e)` of a `KeysError`, as interpolated by callers. -/
def KeysError.message : KeysError → String
  | .httpError status => "Failed to get public keys: " ++ toString status
  | .reqException msg => msg
  | .jsonError => jsonDecodeErrMsg

/-- The `requests.get(keys_url)` call site of `get_public_keys`: no
`timeout=`. -/
def keysRequest (a : AppIDAuth) : HttpRequest where
  method := "GET"
  url := a.oauth_server_url ++ "/publickeys"
  formData := []
  timeout := none

/-- The fetch half of `get_public_keys` (everything after the cache
test): GET the keys endpoint, store the parsed body in
`self._public_keys` on 200, raise otherwise.  Returns the requests
issued, the updated object state, and the result. -/
def fetchKeys (a : AppIDAuth) (outcome : HttpOutcome) :
    List HttpRequest × AppIDAuth × Except KeysError JVal :=
  let req := keysRequest a
  match outcome with
  | .exn msg => ([req], a, .error (.reqException msg))
  | .resp status body =>
      if status = 200 then
        match body with
        | some ks => ([req], { a with public_keys := some ks }, .ok ks)
        | none => ([req], a, .error .jsonError)
      else ([req], a, .error (.httpError status))

/-- Model of `AppIDAuth.get_public_keys`: `if self._public_keys: return
self._public_keys` — a Python truthiness test, so a cached falsy value
(such as an empty dictionary) does not short-circuit — else fetch. -/
def get_public_keys (a : AppIDAuth) (outcome : HttpOutcome) :
    List HttpRequest × AppIDAuth × Except KeysError JVal :=
  match a.public_keys with
  | some ks => if ks.truthy then ([], a, .ok ks) else fetchKeys a outcome
  | none => fetchKeys a outcome

/-- The `requests.get(userinfo_url, headers=...)` call site of
`get_user_info`: no `timeout=`. -/
def userinfoRequest (a : AppIDAuth) : HttpRequest where
  method := "GET"
  url := a.oauth_server_url ++ "/userinfo"
  formData := []
  timeout := none

/-- Model of `AppIDAuth.get_user_info`: GET the userinfo endpoint with the
bearer token; parsed JSON on 200, `Exception(f"Failed to get user
info: {status}")` otherwise. -/
def get_user_info (a : AppIDAuth) (outcome : HttpOutcome) :
    HttpRequest × Except String JVal :=
  let req := userinfoRequest a
  match outcome with
  | .exn msg => (req, .error msg)
  | .resp status body =>
      if status = 200 then
        match body with
        | some info => (req, .ok info)
        | none => (req, .error jsonDecodeErrMsg)
      else (req, .error ("Failed to get user info: " ++ toString status))

/-- The `requests.post(token_url, data=..., headers=...)` call site of
`refresh_token`: no `timeout=`. -/
def refreshRequest (a : AppIDAuth) (rtok : String) : HttpRequest where
  method := "POST"
  url := a.oauth_server_url ++ "/token"
  formData := [("grant_type", "refresh_token"), ("refresh_token", rtok),
               ("client_id", a.client_id), ("client_secret", a.secret)]
  timeout := none

/-- Model of `AppIDAuth.refresh_token`: POST the refresh grant; parsed JSON on
200, `Exception(f"Token refresh failed: {status}")` otherwise. -/
def refresh_token (a : AppIDAuth) (rtok : String) (outcome : HttpOutcome) :
    HttpRequest × Except String JVal :=
  let req := refreshRequest a rtok
  match outcome with
  | .exn msg => (req, .error msg)
  | .resp status body =>
      if status = 200 then
        match body with
        | some tokens => (req, .ok tokens)
        | none => (req, .error jsonDecodeErrMsg)
      else (req, .error ("Token refresh failed: " ++ toString status))

/-- Outcome of `jwt.get_unverified_header(token)`: either the header
parses and carries an optional `kid` value, or the library raises
`jwt.InvalidTokenError` on a structurally malformed token. -/
inductive JwtHeaderResult where
  | ok (kid : Option JVal)
  | invalid
deriving DecidableEq

/-- Outcome of `jwt.decode(token, key, algorithms=..., audience=...,
issuer=...)` with the selected key: success with the payload claims,
`jwt.ExpiredSignatureError`, or `jwt.InvalidTokenError` (bad
signature, audience/issuer mismatch, malformed payload).
`jwt.algorithms.RSAAlgorithm.from_jwk` is modelled as succeeding on
the matched JWK. -/
inductive JwtDecodeResult where
  | ok (payload : JVal)
  | expiredSig
  | invalidTok
deriving DecidableEq

/-- The exceptions `verify_token` raises, one constructor per raise
site of its except clauses. -/
inductive VerifyError where
  /-- The `raise Exception("Token has expired")`. -/
  | expired
  /-- The `raise Exception("Invalid token")`. -/
  | invalidToken
  /-- the inner `raise Exception("Public key not found")`, rewrapped by
  the generic handler into `Token verification failed: ...`. -/
  | keyNotFound
  /-- a failure escaping `get_public_keys`, rewrapped by the generic
  handler. -/
  | wrapped (inner : KeysError)
deriving DecidableEq

/-- The `str(e)` a caller of `verify_token` observes for each raised
exception. -/
def VerifyError.message : VerifyError → String
  | .expired => "Token has expired"
  | .invalidToken => "Invalid token"
  | .keyNotFound => "Token verification failed: Public key not found"
  | .wrapped inner => "Token verification failed: " ++ inner.message

/-- The key-lookup loop of `verify_token`: the first entry of
`public_keys.get("keys", [])` whose `kid` equals the header key id
(`None == None` holds in Python, hence equality of `Option` values). -/
def findKey (ks : JVal) (kid : Option JVal) : Option JVal :=
  (JVal.elems ((ks.get? "keys").getD .arrNil)).find? (fun k => decide (k.get? "kid" = kid))

/-- Key sets on which the embedding of the lookup loop agrees with
Python (a dictionary whose `keys` entry, if present, is an array of
dictionaries); on other shapes Python raises `AttributeError` or
`TypeError` where the embedding returns `none`/`[]`. -/
def keySetWF (ks : JVal) : Bool :=
  ks.isObjChain &&
    (match ks.get? "keys" with
     | none => true
     | some l => l.isArrChain && (JVal.elems l).all (fun k => k.isObjChain))

/-- Model of `AppIDAuth.verify_token`: fetch/serve cached keys, decode the
header for the key id, locate the matching public key (failing closed
when absent), then verify signature and claims.  Every failure is
surfaced as a raised exception, mirrored by `VerifyError`. -/
def verify_token (a : AppIDAuth) (outcome : HttpOutcome) (hdr : JwtHeaderResult)
    (dec : JwtDecodeResult) : List HttpRequest × AppIDAuth × Except VerifyError JVal :=
  match get_public_keys a outcome with
  | (reqs, a1, .error e) => (reqs, a1, .error (.wrapped e))
  | (reqs, a1, .ok ks) =>
      match hdr with
      | .invalid => (reqs, a1, .error .invalidToken)
      | .ok kid =>
          match findKey ks kid with
          | none => (reqs, a1, .error .keyNotFound)
          | some _ =>
              match dec with
              | .ok payload => (reqs, a1, .ok payload)
              | .expiredSig => (reqs, a1, .error .expired)
              | .invalidTok => (reqs, a1, .error .invalidToken)

/-- The JSON body `{"error": "Authentication not configured"}`. -/
def authNotConfigured : JVal :=
  .objCons "error" (.str "Authentication not configured") .objNil

/-- The `login_required` decorator of `app.py`: with authentication
unconfigured every guarded route answers 500 before anything else;
with no `access_token` in the session it redirects to `/login`
(`url_for('login')`); otherwise it runs the wrapped view. -/
def login_required (authEnabled : Bool) (s : Session) (handler : Session → Resp) : Resp :=
  if !authEnabled then .json 500 authNotConfigured
  else if lookupKey s "access_token" = none then .redirect "/login"
  else handler s

/-- The `requests.get(f'{backend_url}/auth/callback', params={'code':
code}, timeout=30)` call site of `auth_callback`. -/
def backendCallbackRequest (backend_url code : String) : HttpRequest where
  method := "GET"
  url := backend_url ++ "/auth/callback"
  formData := [("code", code)]
  timeout := some 30

/-- Result of one run of the callback view: the outbound requests it
issued, the session it left behind, and the response. -/
structure CallbackResult where
  calls : List HttpRequest
  sess : Session
  response : Resp
deriving DecidableEq

/-- The `try` block of the `auth_callback` view of `app.py`, entered
once the code has been received: one GET to the backend's callback
endpoint with the code; on a 200 response whose JSON carries
`status == 'success'`, store `access_token` then `user_info` into the
session — two separate subscript assignments, the second of which can
raise `KeyError` after the first has already committed — and redirect
to `/profile`.  Every raised exception (backend exception, non-JSON
body, non-success status, missing key) lands in the `except` clause:
flash and redirect to `/login`. -/
def callbackTry (backend_url code : String) (outcome : HttpOutcome) (s0 : Session) :
    CallbackResult :=
  let req := backendCallbackRequest backend_url code
  match outcome with
  | .exn _ => ⟨[req], s0, .redirect "/login"⟩
  | .resp status body =>
      if status = 200 then
        match body with
        | none => ⟨[req], s0, .redirect "/login"⟩
        | some auth_data =>
            if auth_data.get? "status" = some (.str "success") then
              match auth_data.get? "access_token" with
              | none => ⟨[req], s0, .redirect "/login"⟩
              | some tok =>
                  let s1 := setKey s0 "access_token" tok
                  match auth_data.get? "user_info" with
                  | none => ⟨[req], s1, .redirect "/login"⟩
                  | some ui => ⟨[req], setKey s1 "user_info" ui, .redirect "/profile"⟩
            else ⟨[req], s0, .redirect "/login"⟩
      else ⟨[req], s0, .redirect "/login"⟩

/-- The `auth_callback` view of `app.py`.  `code` and `error` are the
query parameters (`none` when absent); `backend_url` is
`os.getenv('BACKEND_URL', 'http://localhost:8080')`; `outcome` is what
the backend call produced; `s0` the session before the request.  A
truthy `error` parameter or a falsy `code` aborts to `/login` before
any network activity; otherwise the view runs its `try` block. -/
def auth_callback (code error : Option String) (backend_url : String)
    (outcome : HttpOutcome) (s0 : Session) : CallbackResult :=
  if optTruthy error then ⟨[], s0, .redirect "/login"⟩
  else if !optTruthy code then ⟨[], s0, .redirect "/login"⟩
  else callbackTry backend_url (code.getD "") outcome s0

/-- With a truthy code and no truthy error, `auth_callback` is its
`try` block. -/
theorem auth_callback_eq_try (code error : Option String) (backend_url : String)
    (outcome : HttpOutcome) (s0 : Session)
    (hc : optTruthy code = true) (he : optTruthy error = false) :
    auth_callback code error backend_url outcome s0 =
      callbackTry backend_url (code.getD "") outcome s0 := by
  simp [auth_callback, hc, he]

/-- The `try` block always issues exactly the one backend callback
request. -/
theorem callbackTry_calls (backend_url code : String) (outcome : HttpOutcome) (s0 : Session) :
    (callbackTry backend_url code outcome s0).calls =
      [backendCallbackRequest backend_url code] := by
  unfold callbackTry
  cases outcome with
  | exn m => rfl
  | resp st body =>
      simp only
      repeat' split
      all_goals rfl

/-- Holds (as `true`) exactly on the backend outcomes that drive `auth_callback`
through every step of its success branch: HTTP 200, JSON body,
`status == 'success'`, and both `access_token` and `user_info`
present. -/
def fullSuccess (outcome : HttpOutcome) : Bool :=
  match outcome with
  | .resp status (some d) =>
      status == 200 && d.get? "status" == some (.str "success") &&
        (d.get? "access_token").isSome && (d.get? "user_info").isSome
  | _ => false

/-- The `requests.get(f'{backend_url}/api/protected', headers=...,
timeout=30)` call site of `protected_api`. -/
def protectedApiRequest (backend_url : String) : HttpRequest where
  method := "GET"
  url := backend_url ++ "/api/protected"
  formData := []
  timeout := some 30

/-- The body of the `protected_api` view after the guard: call the
backend inside a try/except; a non-200 status or any raised exception
is converted to a structured `{"error": reason}` object, and the view
always answers 200 with `{message, user, backend_data}` where `user`
is `session.get('user_info')`. -/
def protected_api_inner (s : Session) (backend_url : String) (outcome : HttpOutcome) :
    List HttpRequest × Resp :=
  let user_info := (lookupKey s "user_info").getD .null
  let backend_data : JVal :=
    match outcome with
    | .exn msg => .objCons "error" (.str msg) .objNil
    | .resp status body =>
        if status = 200 then
          match body with
          | some j => j
          | none => .objCons "error" (.str jsonDecodeErrMsg) .objNil
        else .objCons "error" (.str ("Backend responded with " ++ toString status)) .objNil
  ([protectedApiRequest backend_url],
   .json 200 (.objCons "message" (.str "Frontend protected endpoint")
     (.objCons "user" user_info
       (.objCons "backend_data" backend_data .objNil))))

/-- The full `/api/protected` route: `login_required` wrapped around
`protected_api_inner`. -/
def protected_api (authEnabled : Bool) (s : Session) (backend_url : String)
    (outcome : HttpOutcome) : Resp :=
  login_required authEnabled s (fun sess => (protected_api_inner sess backend_url outcome).2)

/-! ## Concrete fixtures shared by several claims -/

/-- A concrete client configuration (cold key cache). -/
def cfg1 : AppIDAuth :=
  { region := "us-east", tenant_id := "t1", client_id := "cid", secret := "sec" }

/-- The userinfo claims of the specification scenario. -/
def userInfo1 : JVal :=
  .objCons "sub" (.str "u1") (.objCons "email" (.str "a@b.com") .objNil)

/-- A backend callback payload relaying the scenario tokens. -/
def authData1 : JVal :=
  .objCons "status" (.str "success")
    (.objCons "access_token" (.str "tok1")
      (.objCons "user_info" userInfo1 .objNil))

/-- The backend answering 200 with `authData1`. -/
def backendOk : HttpOutcome := .resp 200 (some authData1)

/-- A concrete warm key set with a single key of id `"A"`. -/
def keySet1 : JVal :=
  .objCons "keys" (.arrCons (.objCons "kid" (.str "A") .objNil) .arrNil) .objNil

/-- The configuration `cfg1` with `keySet1` already cached. -/
def cfgWarm : AppIDAuth := { cfg1 with public_keys := some keySet1 }

/-! ## C10 -/

/-- C10: when authentication was not configured at process start
(`AUTH_ENABLED = False`), the route guard answers HTTP 500 with body
`{"error": "Authentication not configured"}` for every session —
including one already holding an `access_token` — and for every wrapped
view, so the session is never consulted and no protected logic runs. -/
theorem c10_guard_unconfigured_short_circuits (s : Session) (handler : Session → Resp) :
    login_required false s handler =
      .json 500 (.objCons "error" (.str "Authentication not configured") .objNil) := rfl

/-! ## C9 -/

/-- C9: on every authenticated request to `/api/protected`, a backend
call that raises (timeout, connection failure) or returns non-200 still
yields a 200 JSON response whose `backend_data` field is a structured
`{"error": reason}` object and whose `user` field carries the stored
`user_info` claims; no backend failure escapes the view. -/
theorem c9_backend_failure_degrades (s : Session) (burl msg : String) (status : Nat)
    (body : Option JVal) (tok : JVal)
    (htok : lookupKey s "access_token" = some tok) (hst : status ≠ 200) :
    protected_api true s burl (.exn msg) =
      .json 200 (.objCons "message" (.str "Frontend protected endpoint")
        (.objCons "user" ((lookupKey s "user_info").getD .null)
          (.objCons "backend_data" (.objCons "error" (.str msg) .objNil) .objNil))) ∧
    protected_api true s burl (.resp status body) =
      .json 200 (.objCons "message" (.str "Frontend protected endpoint")
        (.objCons "user" ((lookupKey s "user_info").getD .null)
          (.objCons "backend_data"
            (.objCons "error" (.str ("Backend responded with " ++ toString status))
              .objNil) .objNil))) := by
  unfold protected_api login_required protected_api_inner
  rw [htok]
  simp [hst]

/-- C9 witness: the theorem applied to a concrete authenticated session,
a connection failure, and a concrete 503 response. -/
theorem c9_backend_failure_degrades_witness :
    protected_api true [("access_token", JVal.str "t"), ("user_info", userInfo1)]
        "http://localhost:8080" (.exn "Connection refused") =
      .json 200 (.objCons "message" (.str "Frontend protected endpoint")
        (.objCons "user" userInfo1
          (.objCons "backend_data"
            (.objCons "error" (.str "Connection refused") .objNil) .objNil))) ∧
    protected_api true [("access_token", JVal.str "t"), ("user_info", userInfo1)]
        "http://localhost:8080" (.resp 503 none) =
      .json 200 (.objCons "message" (.str "Frontend protected endpoint")
        (.objCons "user" userInfo1
          (.objCons "backend_data"
            (.objCons "error" (.str ("Backend responded with " ++ toString 503))
              .objNil) .objNil))) :=
  c9_backend_failure_degrades
    [("access_token", JVal.str "t"), ("user_info", userInfo1)]
    "http://localhost:8080" "Connection refused" 503 none (JVal.str "t")
    (by decide) (by decide)

/-! ## C5 -/

/-- C5: when the token header's key id matches no key in the available
key set, `verify_token` raises the rewrapped "Public key not found"
exception and never returns claims: verification fails closed. -/
theorem c5_key_not_found_fails_closed (a : AppIDAuth) (outcome : HttpOutcome)
    (kid : Option JVal) (dec : JwtDecodeResult) (ks : JVal)
    (hks : (get_public_keys a outcome).2.2 = .ok ks)
    (_hwf : keySetWF ks = true)
    (hfind : findKey ks kid = none) :
    (verify_token a outcome (.ok kid) dec).2.2 = .error .keyNotFound ∧
    ∀ p, (verify_token a outcome (.ok kid) dec).2.2 ≠ .ok p := by
  rcases h : get_public_keys a outcome with ⟨reqs, a1, res⟩
  rw [h] at hks
  simp only at hks
  subst hks
  simp [verify_token, h, hfind]

/-- C5 witness: a warm cache holding one key of id `"A"` and a token
whose header names key id `"B"`. -/
theorem c5_key_not_found_fails_closed_witness :
    keySetWF keySet1 = true ∧
    findKey keySet1 (some (.str "B")) = none ∧
    (verify_token cfgWarm (.exn "unused") (.ok (some (.str "B"))) .expiredSig).2.2 =
      .error .keyNotFound ∧
    ∀ p, (verify_token cfgWarm (.exn "unused") (.ok (some (.str "B"))) .expiredSig).2.2 ≠
      .ok p := by
  refine ⟨by decide, by decide, ?_⟩
  exact c5_key_not_found_fails_closed cfgWarm (.exn "unused") (some (.str "B"))
    .expiredSig keySet1 (by decide) (by decide) (by decide)

/-! ## C7 -/

/-- C7 counterexample: a first successful fetch that returned the empty
key set `{}` leaves the cache warm (`_public_keys = {}`), yet the next
call issues a fresh network fetch, because the cache test is Python
truthiness — contradicting "every later call while the cache is warm
returns the cached value without issuing a new fetch". -/
theorem c7_key_cache_counterexample :
    (get_public_keys cfg1 (.resp 200 (some .objNil))).2.1.public_keys = some .objNil ∧
    (get_public_keys (get_public_keys cfg1 (.resp 200 (some .objNil))).2.1
        (.resp 200 (some .objNil))).1 =
      [keysRequest (get_public_keys cfg1 (.resp 200 (some .objNil))).2.1] := by
  decide

/-- C7 (amended): after a first successful fetch that returned a
non-empty (truthy) key set, the key set is cached; every later call —
whatever the network would do — issues no request, leaves the state
unchanged and returns the same cached value.  A fetched empty key set
is treated as a cold cache and re-fetched. -/
theorem c7_key_cache_idempotent_amended (a : AppIDAuth) (out1 out2 : HttpOutcome) (ks : JVal)
    (hcold : a.public_keys = none)
    (hfetch : out1 = .resp 200 (some ks))
    (htruthy : ks.truthy = true) :
    get_public_keys a out1 = ([keysRequest a], { a with public_keys := some ks }, .ok ks) ∧
    get_public_keys { a with public_keys := some ks } out2 =
      ([], { a with public_keys := some ks }, .ok ks) := by
  subst hfetch
  constructor
  · simp [get_public_keys, hcold, fetchKeys]
  · simp [get_public_keys, htruthy]

/-- C7 witness: cold `cfg1`, a fetch returning `keySet1`, and a second
call while the provider is down. -/
theorem c7_key_cache_idempotent_amended_witness :
    get_public_keys cfg1 (.resp 200 (some keySet1)) =
      ([keysRequest cfg1], { cfg1 with public_keys := some keySet1 }, .ok keySet1) ∧
    get_public_keys { cfg1 with public_keys := some keySet1 } (.exn "provider down") =
      ([], { cfg1 with public_keys := some keySet1 }, .ok keySet1) :=
  c7_key_cache_idempotent_amended cfg1 (.resp 200 (some keySet1)) (.exn "provider down")
    keySet1 (by decide) (by decide) (by decide)

/-! ## C6 -/

/-- C6: with a key set available, the three verification failure modes
are exactly characterised and mutually distinguishable: `Expired` is
raised precisely when the located key's `jwt.decode` reports an expired
signature, `Invalid token` precisely when the token is structurally
invalid or fails signature/audience/issuer checks, and the rewrapped
`Public key not found` precisely when the header's key id matches no
key; the three surfaced exception messages are pairwise distinct, so a
caller can tell which failure it received. -/
theorem c6_verify_failures_distinguishable (a : AppIDAuth) (outcome : HttpOutcome)
    (hdr : JwtHeaderResult) (dec : JwtDecodeResult) (ks : JVal)
    (hks : (get_public_keys a outcome).2.2 = .ok ks)
    (_hwf : keySetWF ks = true) :
    ((verify_token a outcome hdr dec).2.2 = .error .expired ↔
      ∃ kid, hdr = .ok kid ∧ (findKey ks kid).isSome ∧ dec = .expiredSig) ∧
    ((verify_token a outcome hdr dec).2.2 = .error .invalidToken ↔
      (hdr = .invalid ∨ ∃ kid, hdr = .ok kid ∧ (findKey ks kid).isSome ∧ dec = .invalidTok)) ∧
    ((verify_token a outcome hdr dec).2.2 = .error .keyNotFound ↔
      ∃ kid, hdr = .ok kid ∧ findKey ks kid = none) ∧
    VerifyError.expired.message ≠ VerifyError.invalidToken.message ∧
    VerifyError.expired.message ≠ VerifyError.keyNotFound.message ∧
    VerifyError.invalidToken.message ≠ VerifyError.keyNotFound.message := by
  rcases h : get_public_keys a outcome with ⟨reqs, a1, res⟩
  rw [h] at hks
  simp only at hks
  subst hks
  refine ⟨?_, ?_, ?_, by decide, by decide, by decide⟩
  · cases hdr with
    | invalid => simp [verify_token, h]
    | ok kid =>
        cases hfind : findKey ks kid with
        | none => simp [verify_token, h, hfind]
        | some k => cases dec <;> simp [verify_token, h, hfind]
  · cases hdr with
    | invalid => simp [verify_token, h]
    | ok kid =>
        cases hfind : findKey ks kid with
        | none => simp [verify_token, h, hfind]
        | some k => cases dec <;> simp [verify_token, h, hfind]
  · cases hdr with
    | invalid => simp [verify_token, h]
    | ok kid =>
        cases hfind : findKey ks kid with
        | none => simp [verify_token, h, hfind]
        | some k => cases dec <;> simp [verify_token, h, hfind]

/-- C6 witness: the characterisation applied to the warm one-key cache,
a header naming the cached key id `"A"`, and an expired-signature
decode outcome. -/
theorem c6_verify_failures_distinguishable_witness :
    ((verify_token cfgWarm (.exn "unused") (.ok (some (.str "A"))) .expiredSig).2.2 =
        .error .expired ↔
      ∃ kid, JwtHeaderResult.ok (some (.str "A")) = .ok kid ∧
        (findKey keySet1 kid).isSome ∧ JwtDecodeResult.expiredSig = .expiredSig) ∧
    ((verify_token cfgWarm (.exn "unused") (.ok (some (.str "A"))) .expiredSig).2.2 =
        .error .invalidToken ↔
      (JwtHeaderResult.ok (some (.str "A")) = .invalid ∨
        ∃ kid, JwtHeaderResult.ok (some (.str "A")) = .ok kid ∧
          (findKey keySet1 kid).isSome ∧ JwtDecodeResult.expiredSig = .invalidTok)) ∧
    ((verify_token cfgWarm (.exn "unused") (.ok (some (.str "A"))) .expiredSig).2.2 =
        .error .keyNotFound ↔
      ∃ kid, JwtHeaderResult.ok (some (.str "A")) = .ok kid ∧ findKey keySet1 kid = none) ∧
    VerifyError.expired.message ≠ VerifyError.invalidToken.message ∧
    VerifyError.expired.message ≠ VerifyError.keyNotFound.message ∧
    VerifyError.invalidToken.message ≠ VerifyError.keyNotFound.message :=
  c6_verify_failures_distinguishable cfgWarm (.exn "unused") (.ok (some (.str "A")))
    .expiredSig keySet1 (by decide) (by decide)

/-! ## C1 -/

/-- C1 counterexample: on the request `code=xyz` (no error parameter)
with the backend answering successfully, the callback view issues
exactly one outbound request — `GET {BACKEND_URL}/auth/callback` — and
neither the OIDC client's token-endpoint exchange request nor its
userinfo request appears in the trace, although the run does write the
session and redirect to `/profile`.  This falsifies the claim that the
handler performs the code-for-token exchange, token verification and
user-info fetch via the OIDC client. -/
theorem c1_callback_counterexample :
    (auth_callback (some "xyz") none "http://localhost:8080" backendOk []).calls =
      [backendCallbackRequest "http://localhost:8080" "xyz"] ∧
    tokenExchangeRequest cfg1 "xyz" "http://localhost:5000/auth/callback" ∉
      (auth_callback (some "xyz") none "http://localhost:8080" backendOk []).calls ∧
    userinfoRequest cfg1 ∉
      (auth_callback (some "xyz") none "http://localhost:8080" backendOk []).calls ∧
    (auth_callback (some "xyz") none "http://localhost:8080" backendOk []).response =
      .redirect "/profile" ∧
    (auth_callback (some "xyz") none "http://localhost:8080" backendOk []).sess ≠ [] := by
  decide

/-- C1 (amended): on every callback request carrying a truthy code and
no truthy error parameter, the handler issues exactly one outbound
call, `GET {BACKEND_URL}/auth/callback?code=...`, delegating exchange,
verification and user-info fetch to the backend service; when that call
returns 200 with JSON `status == 'success'` carrying `access_token` and
`user_info`, the handler writes those two session keys and redirects to
`/profile`. -/
theorem c1_callback_delegates_amended (code error : Option String) (burl : String)
    (outcome : HttpOutcome) (s0 : Session) (d tok ui : JVal)
    (hc : optTruthy code = true) (he : optTruthy error = false) :
    (auth_callback code error burl outcome s0).calls =
      [backendCallbackRequest burl (code.getD "")] ∧
    (outcome = .resp 200 (some d) → d.get? "status" = some (.str "success") →
      d.get? "access_token" = some tok → d.get? "user_info" = some ui →
      (auth_callback code error burl outcome s0).sess =
        setKey (setKey s0 "access_token" tok) "user_info" ui ∧
      (auth_callback code error burl outcome s0).response = .redirect "/profile") := by
  rw [auth_callback_eq_try code error burl outcome s0 hc he]
  constructor
  · exact callbackTry_calls burl (code.getD "") outcome s0
  · intro hout hstat htok hui
    subst hout
    unfold callbackTry
    simp [hstat, htok, hui]

/-- C1 witness: the amended theorem applied to the concrete scenario
request and backend payload, with both hypotheses discharged. -/
theorem c1_callback_delegates_amended_witness :
    (auth_callback (some "xyz") none "http://localhost:8080" backendOk []).calls =
      [backendCallbackRequest "http://localhost:8080" ((some "xyz").getD "")] ∧
    (backendOk = .resp 200 (some authData1) →
      authData1.get? "status" = some (.str "success") →
      authData1.get? "access_token" = some (.str "tok1") →
      authData1.get? "user_info" = some userInfo1 →
      (auth_callback (some "xyz") none "http://localhost:8080" backendOk []).sess =
        setKey (setKey [] "access_token" (.str "tok1")) "user_info" userInfo1 ∧
      (auth_callback (some "xyz") none "http://localhost:8080" backendOk []).response =
        .redirect "/profile") :=
  c1_callback_delegates_amended (some "xyz") none "http://localhost:8080" backendOk []
    authData1 (.str "tok1") userInfo1 (by decide) (by decide)

/-! ## C2 -/

/-- A backend payload with `status == 'success'` and an `access_token`
but no `user_info` key: the shape that drives the callback into a
half-committed session write. -/
def authDataHalf : JVal :=
  .objCons "status" (.str "success") (.objCons "access_token" (.str "tok1") .objNil)

/-- C2 counterexample: with the backend answering 200, `status ==
'success'` and an `access_token` but no `user_info` field (a malformed
response), the callback writes `session['access_token']`, then the
`KeyError` on `auth_data['user_info']` aborts the view — ending in a
redirect to `/login` with a half-written session, not the untouched
session the claim requires. -/
theorem c2_half_write_counterexample :
    (auth_callback (some "xyz") none "http://localhost:8080"
        (.resp 200 (some authDataHalf)) []).response = .redirect "/login" ∧
    (auth_callback (some "xyz") none "http://localhost:8080"
        (.resp 200 (some authDataHalf)) []).sess = [("access_token", .str "tok1")] ∧
    (auth_callback (some "xyz") none "http://localhost:8080"
        (.resp 200 (some authDataHalf)) []).sess ≠ [] := by
  decide

/-- C2 (amended): on every callback request with a truthy code and no
truthy error, if any step fails — backend exception, non-200 status,
unparseable body, `status != 'success'`, or a missing field — the flow
ends with a redirect to `/login`, and the session is left exactly as it
was, except in the single case of a 200 `status == 'success'` payload
that carries `access_token` but lacks `user_info`: there the
`access_token` write has already committed when the `KeyError` aborts
the view, leaving a half-written session. -/
theorem c2_no_full_commit_on_failure_amended (code error : Option String) (burl : String)
    (outcome : HttpOutcome) (s0 : Session)
    (hc : optTruthy code = true) (he : optTruthy error = false)
    (hfail : fullSuccess outcome = false) :
    (auth_callback code error burl outcome s0).response = .redirect "/login" ∧
    ((auth_callback code error burl outcome s0).sess = s0 ∨
      ∃ d tok, outcome = .resp 200 (some d) ∧
        d.get? "status" = some (.str "success") ∧
        d.get? "access_token" = some tok ∧ d.get? "user_info" = none ∧
        (auth_callback code error burl outcome s0).sess = setKey s0 "access_token" tok) := by
  rw [auth_callback_eq_try code error burl outcome s0 hc he]
  unfold callbackTry
  cases outcome with
  | exn m => exact ⟨rfl, .inl rfl⟩
  | resp st body =>
      simp only
      by_cases hstat : st = 200
      · subst hstat
        cases body with
        | none => exact ⟨rfl, .inl rfl⟩
        | some d =>
            by_cases hsucc : d.get? "status" = some (.str "success")
            · cases htok : d.get? "access_token" with
              | none => exact ⟨by simp [hsucc, htok], .inl (by simp [hsucc, htok])⟩
              | some tok =>
                  cases hui : d.get? "user_info" with
                  | none =>
                      refine ⟨by simp [hsucc, htok, hui],
                        .inr ⟨d, tok, rfl, hsucc, htok, hui, by simp [hsucc, htok, hui]⟩⟩
                  | some ui =>
                      exfalso
                      rw [fullSuccess] at hfail
                      simp [hsucc, htok, hui] at hfail
            · exact ⟨by simp [hsucc], .inl (by simp [hsucc])⟩
      · exact ⟨by simp [hstat], .inl (by simp [hstat])⟩

/-- C2 witness: a backend returning HTTP 400 (the mocked failing
exchange of the specification): redirect to `/login`, session
untouched. -/
theorem c2_no_full_commit_on_failure_amended_witness :
    (auth_callback (some "xyz") none "http://localhost:8080" (.resp 400 none) []).response =
      .redirect "/login" ∧
    ((auth_callback (some "xyz") none "http://localhost:8080" (.resp 400 none) []).sess =
        ([] : Session) ∨
      ∃ d tok, (HttpOutcome.resp 400 none) = .resp 200 (some d) ∧
        d.get? "status" = some (.str "success") ∧
        d.get? "access_token" = some tok ∧ d.get? "user_info" = none ∧
        (auth_callback (some "xyz") none "http://localhost:8080" (.resp 400 none) []).sess =
          setKey [] "access_token" tok) :=
  c2_no_full_commit_on_failure_amended (some "xyz") none "http://localhost:8080"
    (.resp 400 none) [] (by decide) (by decide) (by decide)

/-! ## C3 -/

/-- C3 counterexample: in the concrete scenario (backend relaying
`access_token` `tok1` and the scenario userinfo), the callback does
redirect to `/profile` and stores the access token and claims, but the
resulting session holds no `refresh_token` at all — the view never
stores one — falsifying the claimed session content
`{access_token, refresh_token, user_claims}`. -/
theorem c3_no_refresh_token_counterexample :
    (auth_callback (some "xyz") none "http://localhost:8080" backendOk []).response =
      .redirect "/profile" ∧
    lookupKey (auth_callback (some "xyz") none "http://localhost:8080" backendOk []).sess
      "access_token" = some (.str "tok1") ∧
    lookupKey (auth_callback (some "xyz") none "http://localhost:8080" backendOk []).sess
      "refresh_token" = none := by
  decide

/-- C3 (amended): with the backend callback relaying the scenario
payload — 200, `status == 'success'`, `access_token` `"tok1"` and
userinfo `{"sub": "u1", "email": "a@b.com"}` — calling the view with
`code=xyz` yields a session holding exactly that access token and
those user claims (the view stores no refresh token), and a redirect
to `/profile`. -/
theorem c3_callback_scenario_amended :
    auth_callback (some "xyz") none "http://localhost:8080" backendOk [] =
      ⟨[backendCallbackRequest "http://localhost:8080" "xyz"],
       [("access_token", .str "tok1"), ("user_info", userInfo1)],
       .redirect "/profile"⟩ := by
  decide

/-! ## C4 -/

/-- The token-exchange call always issues exactly its one request. -/
theorem exchange_code_for_tokens_req (a : AppIDAuth) (code : String) (ru : Option String)
    (env : String) (outcome : HttpOutcome) :
    (exchange_code_for_tokens a code ru env outcome).1 =
      tokenExchangeRequest a code (effectiveRedirect ru env) := by
  unfold exchange_code_for_tokens
  cases outcome with
  | exn m => rfl
  | resp st body =>
      simp only
      repeat' split
      all_goals rfl

/-- The fetch half of the key cache always issues exactly its one
request. -/
theorem fetchKeys_calls (a : AppIDAuth) (outcome : HttpOutcome) :
    (fetchKeys a outcome).1 = [keysRequest a] := by
  unfold fetchKeys
  cases outcome with
  | exn m => rfl
  | resp st body =>
      simp only
      repeat' split
      all_goals rfl

/-- The cache logic of `get_public_keys` issues no request (cache hit) or exactly one. -/
theorem get_public_keys_calls (a : AppIDAuth) (outcome : HttpOutcome) :
    (get_public_keys a outcome).1 = [] ∨ (get_public_keys a outcome).1 = [keysRequest a] := by
  unfold get_public_keys
  cases h : a.public_keys with
  | none => exact .inr (fetchKeys_calls a outcome)
  | some ks =>
      by_cases ht : ks.truthy
      · simp [ht]
      · simp [ht, fetchKeys_calls]

/-- The userinfo call always issues exactly its one request. -/
theorem get_user_info_req (a : AppIDAuth) (outcome : HttpOutcome) :
    (get_user_info a outcome).1 = userinfoRequest a := by
  unfold get_user_info
  cases outcome with
  | exn m => rfl
  | resp st body =>
      simp only
      repeat' split
      all_goals rfl

/-- The refresh call always issues exactly its one request. -/
theorem refresh_token_req (a : AppIDAuth) (rtok : String) (outcome : HttpOutcome) :
    (refresh_token a rtok outcome).1 = refreshRequest a rtok := by
  unfold refresh_token
  cases outcome with
  | exn m => rfl
  | resp st body =>
      simp only
      repeat' split
      all_goals rfl

/-- The callback view issues no request (parameter check failed) or
exactly its one backend request. -/
theorem auth_callback_calls (code error : Option String) (burl : String)
    (outcome : HttpOutcome) (s : Session) :
    (auth_callback code error burl outcome s).calls = [] ∨
    (auth_callback code error burl outcome s).calls =
      [backendCallbackRequest burl (code.getD "")] := by
  unfold auth_callback
  by_cases he : optTruthy error
  · simp [he]
  · by_cases hc : optTruthy code
    · simp [he, hc, callbackTry_calls]
    · simp [he, hc]

/-- C4 counterexample: the OIDC client's token-exchange request — like
its key-fetch, userinfo and refresh requests — is issued with no
`timeout=` at all, so the `requests` library waits indefinitely; this
falsifies the claim that every outbound network operation carries a
bounded timeout. -/
theorem c4_no_timeout_counterexample :
    (exchange_code_for_tokens cfg1 "xyz" none "http://localhost:5000/auth/callback"
        (.resp 400 none)).1.timeout = none ∧
    (keysRequest cfg1).timeout = none ∧
    (userinfoRequest cfg1).timeout = none ∧
    (refreshRequest cfg1 "ref1").timeout = none := by
  decide

/-- C4 (amended): only the two backend-proxy calls of `app.py` (the
callback relay and the protected-API call) are issued with a bounded
timeout of 30 seconds; the OIDC client's token exchange, public-key
fetch, userinfo fetch and token refresh are all issued with no timeout,
and each operation issues exactly the request listed (at most one per
call). -/
theorem c4_timeouts_amended (a : AppIDAuth) (code rtok c burl env : String)
    (ru : Option String) (outcome : HttpOutcome) (s : Session)
    (codeQ errorQ : Option String) :
    (exchange_code_for_tokens a code ru env outcome).1 =
      tokenExchangeRequest a code (effectiveRedirect ru env) ∧
    (tokenExchangeRequest a code (effectiveRedirect ru env)).timeout = none ∧
    ((get_public_keys a outcome).1 = [] ∨
      (get_public_keys a outcome).1 = [keysRequest a]) ∧
    (keysRequest a).timeout = none ∧
    (get_user_info a outcome).1 = userinfoRequest a ∧
    (userinfoRequest a).timeout = none ∧
    (refresh_token a rtok outcome).1 = refreshRequest a rtok ∧
    (refreshRequest a rtok).timeout = none ∧
    ((auth_callback codeQ errorQ burl outcome s).calls = [] ∨
      (auth_callback codeQ errorQ burl outcome s).calls =
        [backendCallbackRequest burl (codeQ.getD "")]) ∧
    (backendCallbackRequest burl c).timeout = some 30 ∧
    (protected_api_inner s burl outcome).1 = [protectedApiRequest burl] ∧
    (protectedApiRequest burl).timeout = some 30 :=
  ⟨exchange_code_for_tokens_req a code ru env outcome, rfl,
   get_public_keys_calls a outcome, rfl,
   get_user_info_req a outcome, rfl,
   refresh_token_req a rtok outcome, rfl,
   auth_callback_calls codeQ errorQ burl outcome s, rfl,
   rfl, rfl⟩

/-! ## C8 -/

/-- Holds (as `true`) iff the second list is an initial segment of the first. -/
def listStartsWith : List Char → List Char → Bool
  | _, [] => true
  | [], _ :: _ => false
  | h :: hs, c :: cs => h = c && listStartsWith hs cs

/-- Holds (as `true`) iff the second list occurs contiguously in the first. -/
def listHasSub : List Char → List Char → Bool
  | hay, sub =>
      listStartsWith hay sub ||
        match hay with
        | [] => false
        | _ :: t => listHasSub t sub

/-- C8 counterexample: with a state argument supplied but equal to the
empty string, the generated login URL carries no `state` parameter at
all (the substring `state` does not occur), falsifying "the state
parameter appears exactly when a state argument is supplied"; the
other four parameters are present and consistently URL-escaped. -/
theorem c8_empty_state_counterexample :
    get_login_url cfg1 (some "http://x/cb") (some "") "http://localhost:5000/auth/callback" =
      "https://us-east.appid.cloud.ibm.com/oauth/v4/t1/authorization?client_id=cid&response_type=code&redirect_uri=http%3A%2F%2Fx%2Fcb&scope=openid+profile+email" ∧
    listHasSub (get_login_url cfg1 (some "http://x/cb") (some "")
        "http://localhost:5000/auth/callback").data ("state".data) = false := by
  constructor
  · rfl
  · decide

/-- C8 (amended): for every configuration, the login URL is the
authorization endpoint followed by the urlencoded parameter list; that
list always contains `client_id`, `response_type=code`, the effective
redirect URI (the supplied one when non-empty, else the environment
default) and `scope=openid profile email` (escaped as
`openid+profile+email`); a `state` parameter appears exactly when a
non-empty state argument is supplied.  No network request is issued —
`get_login_url` is pure string composition. -/
theorem c8_login_url_amended (a : AppIDAuth) (r st : Option String) (env : String) :
    get_login_url a r st env =
      a.oauth_server_url ++ "/authorization?" ++
        urlencode (loginParams a (effectiveRedirect r env) st) ∧
    ("client_id", a.client_id) ∈ loginParams a (effectiveRedirect r env) st ∧
    ("response_type", "code") ∈ loginParams a (effectiveRedirect r env) st ∧
    ("redirect_uri", effectiveRedirect r env) ∈ loginParams a (effectiveRedirect r env) st ∧
    ("scope", "openid profile email") ∈ loginParams a (effectiveRedirect r env) st ∧
    (∀ v, ("state", v) ∈ loginParams a (effectiveRedirect r env) st ↔
      st = some v ∧ v ≠ "") ∧
    quote_plus "openid profile email" = "openid+profile+email" := by
  refine ⟨rfl, by simp [loginParams], by simp [loginParams], by simp [loginParams],
    by simp [loginParams], ?_, by rfl⟩
  intro v
  constructor
  · intro hv
    cases st with
    | none => simp [loginParams] at hv
    | some s' =>
        by_cases hs : s' = ""
        · subst hs; simp [loginParams] at hv
        · simp [loginParams, hs] at hv
          subst hv
          exact ⟨rfl, hs⟩
  · rintro ⟨hsome, hne⟩
    subst hsome
    simp [loginParams, hne]
